import Mathlib

/-!
Verification of the constants/configuration module
`src/server/initializers/constants.ts` of the perutube repository.

The module is embedded shallowly:

* the external layered-configuration library (`require('config')`) is modelled
  by a record `ConfigData` holding the typed values the module reads through
  `config.get`, together with a list of `ConfigSource`s for
  `config.util.getConfigSources()`;
* the module's mutable top-level state (the `config` variable, the `CONFIG`
  object with its eagerly computed fields and its derived `URL`/`HOST`
  strings, and the `let`-declared constants mutated by the test-instance
  branch) is a record `ModuleState`;
* module initialization (evaluating the file top to bottom: building `CONFIG`,
  running the test-instance override block, then `updateWebserverConfig()`)
  is the function `initModuleState` / `initModule`;
* `reloadConfig` replaces the `config` snapshot and reruns
  `updateWebserverConfig` (the `require.cache` purge is process-level I/O with
  no observable effect in this model beyond the snapshot replacement);
* the getter properties of `CONFIG` (`ADMIN.EMAIL`, `SIGNUP.*`,
  `USER.VIDEO_QUOTA`, `TRANSCODING.*`, `CACHE.PREVIEWS.SIZE`) are functions
  reading the current snapshot, while the plain fields are captured once at
  initialization.

Helpers imported from `../helpers/core-utils` (`sanitizeUrl`, `sanitizeHost`,
`buildPath`, `root`, `isTestInstance`) are not part of the given sources; they
are modelled from the spec where their behaviour matters and marked as such.
`isTestInstance` is modelled as a boolean parameter of initialization.
-/

namespace Perutube

/-- A value stored in the external configuration, as JavaScript sees it:
`config.get<boolean>('webserver.https') === true` is a strict equality, so the
distinction between the boolean `true` and other truthy values is observable. -/
inductive CVal where
  | bool (b : Bool)
  | str (s : String)
  | num (n : Int)
deriving DecidableEq, Repr

/-- One configuration source as reported by `config.util.getConfigSources()`;
only its `name` (a file path) is used by the module. -/
structure ConfigSource where
  name : String
deriving DecidableEq, Repr

/-- The typed settings the module reads from the external configuration
library through `config.get`, one field per dotted key used in the source. -/
structure ConfigData where
  listenPort : Nat
  databaseSuffix : String
  databaseHostname : String
  databasePort : Nat
  databaseUsername : String
  databasePassword : String
  storageAvatars : String
  storageLogs : String
  storageVideos : String
  storageThumbnails : String
  storagePreviews : String
  storageTorrents : String
  storageCache : String
  webserverHttps : CVal
  webserverHostname : String
  webserverPort : Nat
  adminEmail : String
  signupEnabled : Bool
  signupLimit : Nat
  userVideoQuota : Int
  transcodingEnabled : Bool
  transcodingThreads : Nat
  transcodingRes240p : Bool
  transcodingRes360p : Bool
  transcodingRes480p : Bool
  transcodingRes720p : Bool
  transcodingRes1080p : Bool
  cachePreviewsSize : Nat
deriving DecidableEq, Repr

/-- The process environment variables read by the module
(`process.env.NODE_ENV`, `process.env.NODE_APP_INSTANCE`); `none` means the
variable is absent. -/
structure Env where
  NODE_ENV : Option String
  NODE_APP_INSTANCE : Option String
deriving DecidableEq, Repr

/-- JavaScript truthiness of a `process.env` entry: such an entry is either
absent (`undefined`, falsy) or a string, and the empty string is falsy. -/
def envTruthy : Option String → Bool
  | none => false
  | some s => s ≠ ""

/-- `s.endsWith suf`, computed structurally on the character lists so that it
evaluates inside the kernel. -/
def strEndsWith (s suf : String) : Bool :=
  suf.data.isSuffixOf s.data

/-- `s.startsWith pre`, computed structurally on the character lists. -/
def strStartsWith (s pre : String) : Bool :=
  pre.data.isPrefixOf s.data

/-- Drop the last `n` characters of `s`, structurally. -/
def strDropRight (s : String) (n : Nat) : String :=
  ⟨s.data.take (s.data.length - n)⟩

/-- Remove `suf` from the end of `s` when it is a suffix, else return `s`
unchanged (the `host.replace(new RegExp(..$), '')` idiom). -/
def stripSuffix (s suf : String) : String :=
  if strEndsWith s suf then strDropRight s suf.data.length else s

/-- Node's POSIX `path.dirname` for the simple paths the module handles:
everything before the last `/`, `.` when there is no slash, `/` for
root-level entries. -/
def dirname (p : String) : String :=
  let r := p.data.reverse
  if r.contains '/' then
    let d := ((r.dropWhile (· ≠ '/')).drop 1).reverse
    if d = [] then "/" else ⟨d⟩
  else "."

/-- Node's POSIX `path.join` restricted to the two-segment joins the module
performs. -/
def pathJoin (a b : String) : String :=
  if strEndsWith a "/" then a ++ b else a ++ "/" ++ b

/-- Fuelled decimal digit rendering, structurally recursive. -/
def natDigits : Nat → Nat → List Char
  | 0, _ => []
  | fuel + 1, m =>
    if m < 10 then [Nat.digitChar m]
    else natDigits fuel (m / 10) ++ [Nat.digitChar (m % 10)]

/-- Decimal rendering of a natural number (the implicit number-to-string
coercion in the JavaScript string concatenations). -/
def natToStr (n : Nat) : String :=
  ⟨natDigits (n + 1) n⟩

/-- Modelled from the spec: `root()` from `helpers/core-utils` (not under
`src/`) returns the application root directory; its exact value is
environment-determined and irrelevant to the claims, fixed here. -/
def rootDir : String := "/app"

/-- Modelled from the spec: `buildPath` from `helpers/core-utils` (not under
`src/`) resolves a configured storage path, keeping absolute paths and joining
relative ones under the application root. -/
def buildPath (p : String) : String :=
  if strStartsWith p "/" then p else pathJoin rootDir p

/-- Modelled from the spec: `sanitizeUrl` from `helpers/core-utils` (not under
`src/`), "normalizing via host/URL sanitization (strip default ports,
normalize trailing slashes)": the default port of the URL's scheme (80 for
http, 443 for https) is stripped, as is a trailing slash. -/
def sanitizeUrl (url : String) : String :=
  let u := if strEndsWith url "/" then strDropRight url 1 else url
  if strStartsWith u "https://" then stripSuffix u ":443"
  else if strStartsWith u "http://" then stripSuffix u ":80"
  else u

/-- Modelled from the spec: `sanitizeHost` from `helpers/core-utils` (not
under `src/`), stripping from `host` the default port of the given remote
scheme (443 for https, 80 otherwise). -/
def sanitizeHost (host : String) (remoteScheme : String) : String :=
  stripSuffix host (if remoteScheme = "https" then ":443" else ":80")

/-- `getLocalConfigFilePath` from the source: fails when the external library
reports no configuration source, otherwise builds
`dirname(sources[0].name)/local[-NODE_ENV][-NODE_APP_INSTANCE].json`, the
suffixes appended only when the corresponding environment variable is truthy. -/
def getLocalConfigFilePath (configSources : List ConfigSource) (env : Env) :
    Except String String :=
  if configSources.length = 0 then .error "Invalid config source."
  else
    let filename := "local"
    let filename :=
      if envTruthy env.NODE_ENV then filename ++ "-" ++ env.NODE_ENV.getD ""
      else filename
    let filename :=
      if envTruthy env.NODE_APP_INSTANCE then
        filename ++ "-" ++ env.NODE_APP_INSTANCE.getD ""
      else filename
    .ok (pathJoin (dirname ((configSources.headD ⟨""⟩).name)) (filename ++ ".json"))

/-- The `VideoPrivacy` enumeration from the shared models (referenced, not
given, in the sources); only the distinctness of its three members matters. -/
inductive VideoPrivacy where
  | PUBLIC
  | UNLISTED
  | PRIVATE
deriving DecidableEq, Repr

/-- `FOLLOW_STATES` as an association list, in source order. -/
def FOLLOW_STATES : List (String × String) :=
  [("PENDING", "pending"), ("ACCEPTED", "accepted")]

/-- `JOB_STATES` as an association list, in source order. -/
def JOB_STATES : List (String × String) :=
  [("PENDING", "pending"), ("PROCESSING", "processing"),
   ("ERROR", "error"), ("SUCCESS", "success")]

/-- `JOB_CATEGORIES` as an association list, in source order. -/
def JOB_CATEGORIES : List (String × String) :=
  [("TRANSCODING", "transcoding"), ("ACTIVITYPUB_HTTP", "activitypub-http")]

/-- `VIDEO_RATE_TYPES` as an association list, in source order. -/
def VIDEO_RATE_TYPES : List (String × String) :=
  [("LIKE", "like"), ("DISLIKE", "dislike")]

/-- `VIDEO_CATEGORIES` as an association list, in source order. -/
def VIDEO_CATEGORIES : List (Nat × String) :=
  [(1, "Music"), (2, "Films"), (3, "Vehicles"), (4, "Art"), (5, "Sports"),
   (6, "Travels"), (7, "Gaming"), (8, "People"), (9, "Comedy"),
   (10, "Entertainment"), (11, "News"), (12, "How To"), (13, "Education"),
   (14, "Activism"), (15, "Science & Technology"), (16, "Animals"),
   (17, "Kids"), (18, "Food")]

/-- `VIDEO_LICENCES` as an association list, in source order. -/
def VIDEO_LICENCES : List (Nat × String) :=
  [(1, "Attribution"), (2, "Attribution - Share Alike"),
   (3, "Attribution - No Derivatives"), (4, "Attribution - Non Commercial"),
   (5, "Attribution - Non Commercial - Share Alike"),
   (6, "Attribution - Non Commercial - No Derivatives"),
   (7, "Public Domain Dedication")]

/-- `VIDEO_LANGUAGES` as an association list, in source order. -/
def VIDEO_LANGUAGES : List (Nat × String) :=
  [(1, "English"), (2, "Spanish"), (3, "Mandarin"), (4, "Hindi"),
   (5, "Arabic"), (6, "Portuguese"), (7, "Bengali"), (8, "Russian"),
   (9, "Japanese"), (10, "Punjabi"), (11, "German"), (12, "Korean"),
   (13, "French"), (14, "Italian")]

/-- `VIDEO_PRIVACIES` as an association list keyed by the privacy enum. -/
def VIDEO_PRIVACIES : List (VideoPrivacy × String) :=
  [(.PUBLIC, "Public"), (.UNLISTED, "Unlisted"), (.PRIVATE, "Private")]

/-- `VIDEO_MIMETYPE_EXT` as an association list, in source order. -/
def VIDEO_MIMETYPE_EXT : List (String × String) :=
  [("video/webm", ".webm"), ("video/ogg", ".ogv"), ("video/mp4", ".mp4")]

/-- `AVATAR_MIMETYPE_EXT` as an association list, in source order. -/
def AVATAR_MIMETYPE_EXT : List (String × String) :=
  [("image/png", ".png"), ("image/jpg", ".jpg"), ("image/jpeg", ".jpg")]

/-- `ACTIVITY_PUB_ACTOR_TYPES` as an association list, in source order. -/
def ACTIVITY_PUB_ACTOR_TYPES : List (String × String) :=
  [("GROUP", "Group"), ("PERSON", "Person"), ("APPLICATION", "Application")]

/-- The enumeration tables bundled, so that the operations on `ModuleState`
can be seen not to touch them. -/
structure Tables where
  FOLLOW_STATES : List (String × String)
  JOB_STATES : List (String × String)
  JOB_CATEGORIES : List (String × String)
  VIDEO_RATE_TYPES : List (String × String)
  VIDEO_CATEGORIES : List (Nat × String)
  VIDEO_LICENCES : List (Nat × String)
  VIDEO_LANGUAGES : List (Nat × String)
  VIDEO_PRIVACIES : List (VideoPrivacy × String)
  VIDEO_MIMETYPE_EXT : List (String × String)
  AVATAR_MIMETYPE_EXT : List (String × String)
  ACTIVITY_PUB_ACTOR_TYPES : List (String × String)
deriving DecidableEq, Repr

/-- The tables with their literal contents from the source. -/
def initialTables : Tables where
  FOLLOW_STATES := FOLLOW_STATES
  JOB_STATES := JOB_STATES
  JOB_CATEGORIES := JOB_CATEGORIES
  VIDEO_RATE_TYPES := VIDEO_RATE_TYPES
  VIDEO_CATEGORIES := VIDEO_CATEGORIES
  VIDEO_LICENCES := VIDEO_LICENCES
  VIDEO_LANGUAGES := VIDEO_LANGUAGES
  VIDEO_PRIVACIES := VIDEO_PRIVACIES
  VIDEO_MIMETYPE_EXT := VIDEO_MIMETYPE_EXT
  AVATAR_MIMETYPE_EXT := AVATAR_MIMETYPE_EXT
  ACTIVITY_PUB_ACTOR_TYPES := ACTIVITY_PUB_ACTOR_TYPES

/-- The module's top-level mutable state after evaluation:

* `config` is the `let config` variable (the currently loaded snapshot);
* the `CUSTOM_FILE`, `LISTEN_*`, `DATABASE_*`, `STORAGE_*` and plain
  `WEBSERVER_*` fields are the eagerly computed fields of the `CONFIG` object
  literal (evaluated once, when `CONFIG` is built);
* `WEBSERVER_URL` and `WEBSERVER_HOST` are the derived strings assigned by
  `updateWebserverConfig`;
* the remaining fields are the `let`/`const`-object constants that the
  test-instance branch may overwrite, with their non-overridden siblings;
* `tables` carries the enumeration tables. -/
structure ModuleState where
  config : ConfigData
  CUSTOM_FILE : String
  LISTEN_PORT : Nat
  DATABASE_DBNAME : String
  DATABASE_HOSTNAME : String
  DATABASE_PORT : Nat
  DATABASE_USERNAME : String
  DATABASE_PASSWORD : String
  STORAGE_AVATARS_DIR : String
  STORAGE_LOG_DIR : String
  STORAGE_VIDEOS_DIR : String
  STORAGE_THUMBNAILS_DIR : String
  STORAGE_PREVIEWS_DIR : String
  STORAGE_TORRENTS_DIR : String
  STORAGE_CACHE_DIR : String
  WEBSERVER_SCHEME : String
  WEBSERVER_WS : String
  WEBSERVER_HOSTNAME : String
  WEBSERVER_PORT : Nat
  WEBSERVER_URL : String
  WEBSERVER_HOST : String
  ACTOR_FOLLOW_SCORE_PENALTY : Int
  ACTOR_FOLLOW_SCORE_BONUS : Int
  ACTOR_FOLLOW_SCORE_BASE : Int
  ACTOR_FOLLOW_SCORE_MAX : Int
  JOBS_FETCHING_INTERVAL : Nat
  SCHEDULER_INTERVAL : Nat
  REMOTE_SCHEME_HTTP : String
  REMOTE_SCHEME_WS : String
  STATIC_MAX_AGE : String
  AP_COLLECTION_ITEMS_PER_PAGE : Nat
  AP_FETCH_PAGE_LIMIT : Nat
  AP_MAX_HTTP_ATTEMPT : Nat
  AP_ACTOR_REFRESH_INTERVAL : Nat
  AVATAR_FILE_SIZE_MAX : Nat
  tables : Tables
deriving DecidableEq, Repr

/-- `updateWebserverConfig` from the source: recompute `CONFIG.WEBSERVER.URL`
from the scheme, hostname and port held in `CONFIG`, and
`CONFIG.WEBSERVER.HOST` from hostname and port sanitized against
`REMOTE_SCHEME.HTTP`. -/
def updateWebserverConfig (s : ModuleState) : ModuleState :=
  { s with
    WEBSERVER_URL :=
      sanitizeUrl (s.WEBSERVER_SCHEME ++ "://" ++ s.WEBSERVER_HOSTNAME ++ ":"
        ++ natToStr s.WEBSERVER_PORT)
    WEBSERVER_HOST :=
      sanitizeHost (s.WEBSERVER_HOSTNAME ++ ":" ++ natToStr s.WEBSERVER_PORT)
        s.REMOTE_SCHEME_HTTP }

/-- The test-instance override block (`if (isTestInstance() === true) { ... }`):
overwrites exactly the nine documented constants. -/
def applyTestOverrides (s : ModuleState) : ModuleState :=
  { s with
    ACTOR_FOLLOW_SCORE_BASE := 20
    JOBS_FETCHING_INTERVAL := 1000
    REMOTE_SCHEME_HTTP := "http"
    REMOTE_SCHEME_WS := "ws"
    STATIC_MAX_AGE := "0"
    AP_COLLECTION_ITEMS_PER_PAGE := 2
    AP_ACTOR_REFRESH_INTERVAL := 10 * 1000
    AVATAR_FILE_SIZE_MAX := 100 * 1024
    SCHEDULER_INTERVAL := 10000 }

/-- Module evaluation after `CUSTOM_FILE` has been computed: build the
`CONFIG` object from the loaded snapshot (eager fields captured now, `URL` and
`HOST` initially empty), set the constants to their literal values, run the
test-instance branch when `testInstance` holds, then `updateWebserverConfig()`. -/
def initModuleState (testInstance : Bool) (cfg : ConfigData)
    (customFile : String) : ModuleState :=
  let s : ModuleState :=
    { config := cfg
      CUSTOM_FILE := customFile
      LISTEN_PORT := cfg.listenPort
      DATABASE_DBNAME := "peertube" ++ cfg.databaseSuffix
      DATABASE_HOSTNAME := cfg.databaseHostname
      DATABASE_PORT := cfg.databasePort
      DATABASE_USERNAME := cfg.databaseUsername
      DATABASE_PASSWORD := cfg.databasePassword
      STORAGE_AVATARS_DIR := buildPath cfg.storageAvatars
      STORAGE_LOG_DIR := buildPath cfg.storageLogs
      STORAGE_VIDEOS_DIR := buildPath cfg.storageVideos
      STORAGE_THUMBNAILS_DIR := buildPath cfg.storageThumbnails
      STORAGE_PREVIEWS_DIR := buildPath cfg.storagePreviews
      STORAGE_TORRENTS_DIR := buildPath cfg.storageTorrents
      STORAGE_CACHE_DIR := buildPath cfg.storageCache
      WEBSERVER_SCHEME := if cfg.webserverHttps = CVal.bool true then "https" else "http"
      WEBSERVER_WS := if cfg.webserverHttps = CVal.bool true then "wss" else "ws"
      WEBSERVER_HOSTNAME := cfg.webserverHostname
      WEBSERVER_PORT := cfg.webserverPort
      WEBSERVER_URL := ""
      WEBSERVER_HOST := ""
      ACTOR_FOLLOW_SCORE_PENALTY := -10
      ACTOR_FOLLOW_SCORE_BONUS := 10
      ACTOR_FOLLOW_SCORE_BASE := 1000
      ACTOR_FOLLOW_SCORE_MAX := 10000
      JOBS_FETCHING_INTERVAL := 60000
      SCHEDULER_INTERVAL := 60000 * 60
      REMOTE_SCHEME_HTTP := "https"
      REMOTE_SCHEME_WS := "wss"
      STATIC_MAX_AGE := "30d"
      AP_COLLECTION_ITEMS_PER_PAGE := 10
      AP_FETCH_PAGE_LIMIT := 100
      AP_MAX_HTTP_ATTEMPT := 5
      AP_ACTOR_REFRESH_INTERVAL := 3600 * 24 * 1000
      AVATAR_FILE_SIZE_MAX := 2 * 1024 * 1024
      tables := initialTables }
  let s := if testInstance then applyTestOverrides s else s
  updateWebserverConfig s

/-- Full module initialization: computing `CONFIG.CUSTOM_FILE` with
`getLocalConfigFilePath()` can throw (when the library reports no
configuration source); otherwise evaluation proceeds as `initModuleState`. -/
def initModule (testInstance : Bool) (cfg : ConfigData)
    (configSources : List ConfigSource) (env : Env) :
    Except String ModuleState :=
  (getLocalConfigFilePath configSources env).map (initModuleState testInstance cfg)

/-- `reloadConfig` from the source: purge the require cache (process-level
I/O, unobservable here), re-require `config` — which yields a freshly loaded
snapshot `newCfg` replacing the `config` variable — then
`updateWebserverConfig()`.  Nothing else in the module is recomputed. -/
def reloadConfig (newCfg : ConfigData) (s : ModuleState) : ModuleState :=
  updateWebserverConfig { s with config := newCfg }

/- The getter properties of `CONFIG`: each reads the current snapshot held by
the `config` variable at access time. -/
namespace CONFIG

def ADMIN.EMAIL (s : ModuleState) : String := s.config.adminEmail
def SIGNUP.ENABLED (s : ModuleState) : Bool := s.config.signupEnabled
def SIGNUP.LIMIT (s : ModuleState) : Nat := s.config.signupLimit
def USER.VIDEO_QUOTA (s : ModuleState) : Int := s.config.userVideoQuota
def TRANSCODING.ENABLED (s : ModuleState) : Bool := s.config.transcodingEnabled
def TRANSCODING.THREADS (s : ModuleState) : Nat := s.config.transcodingThreads
def TRANSCODING.RES_240P (s : ModuleState) : Bool := s.config.transcodingRes240p
def TRANSCODING.RES_360P (s : ModuleState) : Bool := s.config.transcodingRes360p
def TRANSCODING.RES_480P (s : ModuleState) : Bool := s.config.transcodingRes480p
def TRANSCODING.RES_720P (s : ModuleState) : Bool := s.config.transcodingRes720p
def TRANSCODING.RES_1080P (s : ModuleState) : Bool := s.config.transcodingRes1080p
def CACHE.PREVIEWS.SIZE (s : ModuleState) : Nat := s.config.cachePreviewsSize

end CONFIG

/-- A concrete configuration snapshot used in concrete-instance theorems:
`webserver.https = false`, `webserver.hostname = "example.com"`,
`webserver.port = 80`. -/
def cfgA : ConfigData where
  listenPort := 9000
  databaseSuffix := "_prod"
  databaseHostname := "localhost"
  databasePort := 5432
  databaseUsername := "peertube"
  databasePassword := "secret"
  storageAvatars := "storage/avatars/"
  storageLogs := "storage/logs/"
  storageVideos := "storage/videos/"
  storageThumbnails := "storage/thumbnails/"
  storagePreviews := "storage/previews/"
  storageTorrents := "storage/torrents/"
  storageCache := "storage/cache/"
  webserverHttps := .bool false
  webserverHostname := "example.com"
  webserverPort := 80
  adminEmail := "admin@example.com"
  signupEnabled := true
  signupLimit := 10
  userVideoQuota := -1
  transcodingEnabled := false
  transcodingThreads := 2
  transcodingRes240p := false
  transcodingRes360p := false
  transcodingRes480p := false
  transcodingRes720p := false
  transcodingRes1080p := false
  cachePreviewsSize := 1

/-- A second snapshot, differing from `cfgA` in `listen.port` and
`signup.limit`: the snapshot loaded by a reload in the concrete theorems. -/
def cfgB : ConfigData :=
  { cfgA with listenPort := 9001, signupLimit := 42 }

/-- The module state of a non-test instance initialized from `cfgA`. -/
def stA : ModuleState := initModuleState false cfgA "/app/config/local.json"

/-- Claim C1, counterexample: reloading with a snapshot whose `listen.port` is
9001 leaves the `CONFIG.LISTEN.PORT` accessor at the pre-reload value 9000,
while the `CONFIG.SIGNUP.LIMIT` getter already reports the new value 42 — an
accessor call after a completed reload sees a mix of old and new settings. -/
theorem reloadConfig_stale_listen_port_mix :
    (reloadConfig cfgB stA).LISTEN_PORT = 9000 ∧
    cfgB.listenPort = 9001 ∧
    CONFIG.SIGNUP.LIMIT (reloadConfig cfgB stA) = 42 ∧
    cfgB.signupLimit = 42 := by
  refine ⟨by decide, by decide, by decide, by decide⟩

/-- Claim C1, amended: after `reloadConfig` only the getter-based accessors
(`ADMIN.EMAIL`, `SIGNUP.*`, `USER.VIDEO_QUOTA`, `TRANSCODING.*`,
`CACHE.PREVIEWS.SIZE`) observe the newly loaded snapshot; the eagerly
captured fields (`CUSTOM_FILE`, `LISTEN.PORT`, `DATABASE.*`, `STORAGE.*`,
`WEBSERVER.SCHEME/WS/HOSTNAME/PORT`) keep their pre-reload values, and
`WEBSERVER.URL`/`HOST` are recomputed from those stale fields. -/
theorem reloadConfig_getters_new_eager_old (s : ModuleState) (newCfg : ConfigData) :
    CONFIG.ADMIN.EMAIL (reloadConfig newCfg s) = newCfg.adminEmail ∧
    CONFIG.SIGNUP.ENABLED (reloadConfig newCfg s) = newCfg.signupEnabled ∧
    CONFIG.SIGNUP.LIMIT (reloadConfig newCfg s) = newCfg.signupLimit ∧
    CONFIG.USER.VIDEO_QUOTA (reloadConfig newCfg s) = newCfg.userVideoQuota ∧
    CONFIG.TRANSCODING.ENABLED (reloadConfig newCfg s) = newCfg.transcodingEnabled ∧
    CONFIG.TRANSCODING.THREADS (reloadConfig newCfg s) = newCfg.transcodingThreads ∧
    CONFIG.TRANSCODING.RES_240P (reloadConfig newCfg s) = newCfg.transcodingRes240p ∧
    CONFIG.TRANSCODING.RES_360P (reloadConfig newCfg s) = newCfg.transcodingRes360p ∧
    CONFIG.TRANSCODING.RES_480P (reloadConfig newCfg s) = newCfg.transcodingRes480p ∧
    CONFIG.TRANSCODING.RES_720P (reloadConfig newCfg s) = newCfg.transcodingRes720p ∧
    CONFIG.TRANSCODING.RES_1080P (reloadConfig newCfg s) = newCfg.transcodingRes1080p ∧
    CONFIG.CACHE.PREVIEWS.SIZE (reloadConfig newCfg s) = newCfg.cachePreviewsSize ∧
    (reloadConfig newCfg s).CUSTOM_FILE = s.CUSTOM_FILE ∧
    (reloadConfig newCfg s).LISTEN_PORT = s.LISTEN_PORT ∧
    (reloadConfig newCfg s).DATABASE_DBNAME = s.DATABASE_DBNAME ∧
    (reloadConfig newCfg s).DATABASE_HOSTNAME = s.DATABASE_HOSTNAME ∧
    (reloadConfig newCfg s).DATABASE_PORT = s.DATABASE_PORT ∧
    (reloadConfig newCfg s).DATABASE_USERNAME = s.DATABASE_USERNAME ∧
    (reloadConfig newCfg s).DATABASE_PASSWORD = s.DATABASE_PASSWORD ∧
    (reloadConfig newCfg s).STORAGE_AVATARS_DIR = s.STORAGE_AVATARS_DIR ∧
    (reloadConfig newCfg s).STORAGE_LOG_DIR = s.STORAGE_LOG_DIR ∧
    (reloadConfig newCfg s).STORAGE_VIDEOS_DIR = s.STORAGE_VIDEOS_DIR ∧
    (reloadConfig newCfg s).STORAGE_THUMBNAILS_DIR = s.STORAGE_THUMBNAILS_DIR ∧
    (reloadConfig newCfg s).STORAGE_PREVIEWS_DIR = s.STORAGE_PREVIEWS_DIR ∧
    (reloadConfig newCfg s).STORAGE_TORRENTS_DIR = s.STORAGE_TORRENTS_DIR ∧
    (reloadConfig newCfg s).STORAGE_CACHE_DIR = s.STORAGE_CACHE_DIR ∧
    (reloadConfig newCfg s).WEBSERVER_SCHEME = s.WEBSERVER_SCHEME ∧
    (reloadConfig newCfg s).WEBSERVER_WS = s.WEBSERVER_WS ∧
    (reloadConfig newCfg s).WEBSERVER_HOSTNAME = s.WEBSERVER_HOSTNAME ∧
    (reloadConfig newCfg s).WEBSERVER_PORT = s.WEBSERVER_PORT ∧
    (reloadConfig newCfg s).WEBSERVER_URL =
      sanitizeUrl (s.WEBSERVER_SCHEME ++ "://" ++ s.WEBSERVER_HOSTNAME ++ ":"
        ++ natToStr s.WEBSERVER_PORT) ∧
    (reloadConfig newCfg s).WEBSERVER_HOST =
      sanitizeHost (s.WEBSERVER_HOSTNAME ++ ":" ++ natToStr s.WEBSERVER_PORT)
        s.REMOTE_SCHEME_HTTP := by
  repeat' apply And.intro
  all_goals rfl

/-- Claim C2, counterexample: on the snapshot `cfgA` (hostname example.com,
port 80), the derived `CONFIG.WEBSERVER.HOST` — an exported value outside the
documented set of overridden constants — is "example.com" on a test instance
but "example.com:80" on a non-test instance, because the host is sanitized
against the overridden `REMOTE_SCHEME.HTTP`. -/
theorem testOverrides_change_webserver_host :
    (initModuleState true cfgA "/app/config/local.json").WEBSERVER_HOST = "example.com" ∧
    (initModuleState false cfgA "/app/config/local.json").WEBSERVER_HOST = "example.com:80" ∧
    ("example.com" : String) ≠ "example.com:80" := by
  refine ⟨by decide, by decide, by decide⟩

/-- Claim C2, amended: when the test-instance flag is active the branch
overrides exactly the documented nine constants and leaves every other
exported value equal to its non-test value, except the derived
`CONFIG.WEBSERVER.HOST`, which is sanitized against the overridden
`REMOTE_SCHEME.HTTP` ("http" instead of "https") and can therefore differ. -/
theorem testOverrides_exact_frame (cfg : ConfigData) (f : String) :
    (initModuleState true cfg f).ACTOR_FOLLOW_SCORE_BASE = 20 ∧
    (initModuleState false cfg f).ACTOR_FOLLOW_SCORE_BASE = 1000 ∧
    (initModuleState true cfg f).JOBS_FETCHING_INTERVAL = 1000 ∧
    (initModuleState false cfg f).JOBS_FETCHING_INTERVAL = 60000 ∧
    (initModuleState true cfg f).REMOTE_SCHEME_HTTP = "http" ∧
    (initModuleState false cfg f).REMOTE_SCHEME_HTTP = "https" ∧
    (initModuleState true cfg f).REMOTE_SCHEME_WS = "ws" ∧
    (initModuleState false cfg f).REMOTE_SCHEME_WS = "wss" ∧
    (initModuleState true cfg f).STATIC_MAX_AGE = "0" ∧
    (initModuleState false cfg f).STATIC_MAX_AGE = "30d" ∧
    (initModuleState true cfg f).AP_COLLECTION_ITEMS_PER_PAGE = 2 ∧
    (initModuleState false cfg f).AP_COLLECTION_ITEMS_PER_PAGE = 10 ∧
    (initModuleState true cfg f).AP_ACTOR_REFRESH_INTERVAL = 10 * 1000 ∧
    (initModuleState false cfg f).AP_ACTOR_REFRESH_INTERVAL = 3600 * 24 * 1000 ∧
    (initModuleState true cfg f).AVATAR_FILE_SIZE_MAX = 100 * 1024 ∧
    (initModuleState false cfg f).AVATAR_FILE_SIZE_MAX = 2 * 1024 * 1024 ∧
    (initModuleState true cfg f).SCHEDULER_INTERVAL = 10000 ∧
    (initModuleState false cfg f).SCHEDULER_INTERVAL = 60000 * 60 ∧
    (initModuleState true cfg f).config = (initModuleState false cfg f).config ∧
    (initModuleState true cfg f).CUSTOM_FILE = (initModuleState false cfg f).CUSTOM_FILE ∧
    (initModuleState true cfg f).LISTEN_PORT = (initModuleState false cfg f).LISTEN_PORT ∧
    (initModuleState true cfg f).DATABASE_DBNAME = (initModuleState false cfg f).DATABASE_DBNAME ∧
    (initModuleState true cfg f).DATABASE_HOSTNAME = (initModuleState false cfg f).DATABASE_HOSTNAME ∧
    (initModuleState true cfg f).DATABASE_PORT = (initModuleState false cfg f).DATABASE_PORT ∧
    (initModuleState true cfg f).DATABASE_USERNAME = (initModuleState false cfg f).DATABASE_USERNAME ∧
    (initModuleState true cfg f).DATABASE_PASSWORD = (initModuleState false cfg f).DATABASE_PASSWORD ∧
    (initModuleState true cfg f).STORAGE_AVATARS_DIR = (initModuleState false cfg f).STORAGE_AVATARS_DIR ∧
    (initModuleState true cfg f).STORAGE_LOG_DIR = (initModuleState false cfg f).STORAGE_LOG_DIR ∧
    (initModuleState true cfg f).STORAGE_VIDEOS_DIR = (initModuleState false cfg f).STORAGE_VIDEOS_DIR ∧
    (initModuleState true cfg f).STORAGE_THUMBNAILS_DIR = (initModuleState false cfg f).STORAGE_THUMBNAILS_DIR ∧
    (initModuleState true cfg f).STORAGE_PREVIEWS_DIR = (initModuleState false cfg f).STORAGE_PREVIEWS_DIR ∧
    (initModuleState true cfg f).STORAGE_TORRENTS_DIR = (initModuleState false cfg f).STORAGE_TORRENTS_DIR ∧
    (initModuleState true cfg f).STORAGE_CACHE_DIR = (initModuleState false cfg f).STORAGE_CACHE_DIR ∧
    (initModuleState true cfg f).WEBSERVER_SCHEME = (initModuleState false cfg f).WEBSERVER_SCHEME ∧
    (initModuleState true cfg f).WEBSERVER_WS = (initModuleState false cfg f).WEBSERVER_WS ∧
    (initModuleState true cfg f).WEBSERVER_HOSTNAME = (initModuleState false cfg f).WEBSERVER_HOSTNAME ∧
    (initModuleState true cfg f).WEBSERVER_PORT = (initModuleState false cfg f).WEBSERVER_PORT ∧
    (initModuleState true cfg f).WEBSERVER_URL = (initModuleState false cfg f).WEBSERVER_URL ∧
    (initModuleState true cfg f).ACTOR_FOLLOW_SCORE_PENALTY = (initModuleState false cfg f).ACTOR_FOLLOW_SCORE_PENALTY ∧
    (initModuleState true cfg f).ACTOR_FOLLOW_SCORE_BONUS = (initModuleState false cfg f).ACTOR_FOLLOW_SCORE_BONUS ∧
    (initModuleState true cfg f).ACTOR_FOLLOW_SCORE_MAX = (initModuleState false cfg f).ACTOR_FOLLOW_SCORE_MAX ∧
    (initModuleState true cfg f).AP_FETCH_PAGE_LIMIT = (initModuleState false cfg f).AP_FETCH_PAGE_LIMIT ∧
    (initModuleState true cfg f).AP_MAX_HTTP_ATTEMPT = (initModuleState false cfg f).AP_MAX_HTTP_ATTEMPT ∧
    (initModuleState true cfg f).tables = (initModuleState false cfg f).tables ∧
    (initModuleState true cfg f).WEBSERVER_HOST =
      sanitizeHost (cfg.webserverHostname ++ ":" ++ natToStr cfg.webserverPort) "http" ∧
    (initModuleState false cfg f).WEBSERVER_HOST =
      sanitizeHost (cfg.webserverHostname ++ ":" ++ natToStr cfg.webserverPort) "https" := by
  repeat' apply And.intro
  all_goals rfl

/-- Claim C3: with `webserver.https = false`, `webserver.hostname =
"example.com"` and `webserver.port = 80` (the snapshot `cfgA`), the derived
`CONFIG.WEBSERVER.URL` equals "http://example.com", the default port
omitted. -/
theorem webserver_url_default_port_omitted :
    cfgA.webserverHttps = CVal.bool false ∧
    cfgA.webserverHostname = "example.com" ∧
    cfgA.webserverPort = 80 ∧
    (initModuleState false cfgA "/app/config/local.json").WEBSERVER_URL = "http://example.com" := by
  refine ⟨by decide, by decide, by decide, by decide⟩

/-- Claim C4: module initialization fails exactly when the external
configuration library reports zero configuration sources; with at least one
source, `getLocalConfigFilePath` returns normally and initialization
proceeds. -/
theorem initModule_fails_iff_no_config_source (t : Bool) (cfg : ConfigData)
    (sources : List ConfigSource) (env : Env) :
    ((initModule t cfg sources env).toOption.isSome ↔ sources ≠ []) ∧
    ((getLocalConfigFilePath sources env).toOption.isSome ↔ sources ≠ []) := by
  cases sources <;>
    simp [initModule, getLocalConfigFilePath, Except.map, Except.toOption]

/-- Claim C5: `ACTOR_FOLLOW_SCORE.BASE` is 20 on a test instance and its
production default 1000 otherwise. -/
theorem actor_follow_score_base_values (cfg : ConfigData) (f : String) :
    (initModuleState true cfg f).ACTOR_FOLLOW_SCORE_BASE = 20 ∧
    (initModuleState false cfg f).ACTOR_FOLLOW_SCORE_BASE = 1000 :=
  ⟨rfl, rfl⟩

/-- Claim C6: the webserver URL/host derivation is deterministic — two states
agreeing on scheme, hostname, port and remote scheme get identical sanitized
`URL` and `HOST` strings — and `updateWebserverConfig` is idempotent on the
whole module state. -/
theorem updateWebserverConfig_deterministic_idempotent (s t : ModuleState)
    (h1 : s.WEBSERVER_SCHEME = t.WEBSERVER_SCHEME)
    (h2 : s.WEBSERVER_HOSTNAME = t.WEBSERVER_HOSTNAME)
    (h3 : s.WEBSERVER_PORT = t.WEBSERVER_PORT)
    (h4 : s.REMOTE_SCHEME_HTTP = t.REMOTE_SCHEME_HTTP) :
    (updateWebserverConfig s).WEBSERVER_URL = (updateWebserverConfig t).WEBSERVER_URL ∧
    (updateWebserverConfig s).WEBSERVER_HOST = (updateWebserverConfig t).WEBSERVER_HOST ∧
    updateWebserverConfig (updateWebserverConfig s) = updateWebserverConfig s :=
  ⟨by simp [updateWebserverConfig, h1, h2, h3, h4],
   by simp [updateWebserverConfig, h2, h3, h4],
   rfl⟩

/-- Claim C6, witness: the determinism and idempotence theorem applied to the
concrete state `stA` and to the state reached from it by a reload (which
preserves the webserver inputs). -/
theorem updateWebserverConfig_det_idem_witness :
    (updateWebserverConfig stA).WEBSERVER_URL =
      (updateWebserverConfig (reloadConfig cfgB stA)).WEBSERVER_URL ∧
    (updateWebserverConfig stA).WEBSERVER_HOST =
      (updateWebserverConfig (reloadConfig cfgB stA)).WEBSERVER_HOST ∧
    updateWebserverConfig (updateWebserverConfig stA) = updateWebserverConfig stA :=
  updateWebserverConfig_deterministic_idempotent stA (reloadConfig cfgB stA)
    (by decide) (by decide) (by decide) (by decide)

/-- Claim C7: every enumeration table has pairwise-distinct keys, module
initialization installs the literal tables for test and non-test instances
alike, and `reloadConfig` leaves the tables untouched, so repeated reads
within a process lifetime return identical contents. -/
theorem enum_tables_nodup_and_stable :
    (VIDEO_CATEGORIES.map Prod.fst).Nodup ∧
    (VIDEO_LICENCES.map Prod.fst).Nodup ∧
    (VIDEO_LANGUAGES.map Prod.fst).Nodup ∧
    (VIDEO_PRIVACIES.map Prod.fst).Nodup ∧
    (VIDEO_RATE_TYPES.map Prod.fst).Nodup ∧
    (VIDEO_MIMETYPE_EXT.map Prod.fst).Nodup ∧
    (AVATAR_MIMETYPE_EXT.map Prod.fst).Nodup ∧
    (JOB_STATES.map Prod.fst).Nodup ∧
    (JOB_CATEGORIES.map Prod.fst).Nodup ∧
    (FOLLOW_STATES.map Prod.fst).Nodup ∧
    (ACTIVITY_PUB_ACTOR_TYPES.map Prod.fst).Nodup ∧
    (∀ (t : Bool) (cfg : ConfigData) (f : String),
      (initModuleState t cfg f).tables = initialTables) ∧
    (∀ (s : ModuleState) (newCfg : ConfigData),
      (reloadConfig newCfg s).tables = s.tables) := by
  refine ⟨by decide, by decide, by decide, by decide, by decide, by decide,
    by decide, by decide, by decide, by decide, by decide, ?_, ?_⟩
  · intro t cfg f
    cases t <;> rfl
  · intro s newCfg
    rfl

/-- Claim C8, counterexample: with `NODE_ENV` set to the empty string (a set
but falsy environment variable), the file name carries no "-" suffix — the
code produces "local.json", not the "local-.json" the claim prescribes for a
set variable. -/
theorem getLocalConfigFilePath_empty_node_env :
    getLocalConfigFilePath [⟨"/etc/peertube/default.json"⟩] ⟨some "", none⟩ =
      .ok "/etc/peertube/local.json" ∧
    ("/etc/peertube/local.json" : String) ≠ "/etc/peertube/local-.json" :=
  ⟨by rfl, by decide⟩

/-- Claim C8, amended: the local override file lives in the directory of the
first configuration source and is named "local", suffixed with "-" plus
`NODE_ENV` when that variable is set to a non-empty string, then "-" plus
`NODE_APP_INSTANCE` when that variable is set to a non-empty string, with
extension ".json". -/
theorem getLocalConfigFilePath_filename_structure (src : ConfigSource)
    (rest : List ConfigSource) :
    (getLocalConfigFilePath (src :: rest) ⟨none, none⟩ =
      .ok (pathJoin (dirname src.name) "local.json")) ∧
    (∀ v : String, v ≠ "" →
      getLocalConfigFilePath (src :: rest) ⟨some v, none⟩ =
        .ok (pathJoin (dirname src.name) ("local-" ++ v ++ ".json"))) ∧
    (∀ w : String, w ≠ "" →
      getLocalConfigFilePath (src :: rest) ⟨none, some w⟩ =
        .ok (pathJoin (dirname src.name) ("local-" ++ w ++ ".json"))) ∧
    (∀ v w : String, v ≠ "" → w ≠ "" →
      getLocalConfigFilePath (src :: rest) ⟨some v, some w⟩ =
        .ok (pathJoin (dirname src.name) ("local-" ++ v ++ "-" ++ w ++ ".json"))) := by
  refine ⟨?_, ?_, ?_, ?_⟩
  · rfl
  · intro v hv
    simp [getLocalConfigFilePath, envTruthy, hv]
  · intro w hw
    simp [getLocalConfigFilePath, envTruthy, hw]
  · intro v w hv hw
    simp [getLocalConfigFilePath, envTruthy, hv, hw]

/-- Claim C8, witness: the filename-structure theorem applied to a concrete
source and the concrete environment `NODE_ENV = "production"`,
`NODE_APP_INSTANCE = "2"`. -/
theorem getLocalConfigFilePath_filename_witness :
    getLocalConfigFilePath [⟨"/etc/peertube/default.json"⟩] ⟨some "production", some "2"⟩ =
      .ok "/etc/peertube/local-production-2.json" :=
  ((getLocalConfigFilePath_filename_structure ⟨"/etc/peertube/default.json"⟩
      []).2.2.2 "production" "2" (by decide) (by decide)).trans (by rfl)

/-- Claim C9: `CONFIG.WEBSERVER.SCHEME` is "https" (and `WS` is "wss") exactly
when the configured `webserver.https` value is the boolean `true`; any other
value — including the string "true" or the number 1 — yields "http" and
"ws". -/
theorem webserver_scheme_iff_strict_true :
    (∀ (t : Bool) (cfg : ConfigData) (f : String),
      ((initModuleState t cfg f).WEBSERVER_SCHEME = "https" ↔
        cfg.webserverHttps = CVal.bool true) ∧
      ((initModuleState t cfg f).WEBSERVER_WS = "wss" ↔
        cfg.webserverHttps = CVal.bool true) ∧
      (cfg.webserverHttps ≠ CVal.bool true →
        (initModuleState t cfg f).WEBSERVER_SCHEME = "http" ∧
        (initModuleState t cfg f).WEBSERVER_WS = "ws")) ∧
    (initModuleState false { cfgA with webserverHttps := .str "true" } "f").WEBSERVER_SCHEME
      = "http" ∧
    (initModuleState false { cfgA with webserverHttps := .num 1 } "f").WEBSERVER_SCHEME
      = "http" := by
  refine ⟨?_, by decide, by decide⟩
  intro t cfg f
  by_cases h : cfg.webserverHttps = CVal.bool true <;>
    cases t <;>
      simp [initModuleState, applyTestOverrides, updateWebserverConfig, h]

/-- Claim C9, witness: the strict-equality theorem applied to the concrete
snapshot `cfgA`, whose `webserver.https` is the boolean `false`. -/
theorem webserver_scheme_strict_true_witness :
    (initModuleState false cfgA "f").WEBSERVER_SCHEME = "http" ∧
    (initModuleState false cfgA "f").WEBSERVER_WS = "ws" :=
  (webserver_scheme_iff_strict_true.1 false cfgA "f").2.2 (by decide)

/-- Claim C10: the test-instance override block runs before the initial
`updateWebserverConfig()` call, so the derived `CONFIG.WEBSERVER.HOST` is
sanitized against the overridden remote scheme "http" on a test instance and
against "https" otherwise. -/
theorem webserver_host_sanitized_against_remote_scheme (cfg : ConfigData) (f : String) :
    (initModuleState true cfg f).WEBSERVER_HOST =
      sanitizeHost (cfg.webserverHostname ++ ":" ++ natToStr cfg.webserverPort) "http" ∧
    (initModuleState false cfg f).WEBSERVER_HOST =
      sanitizeHost (cfg.webserverHostname ++ ":" ++ natToStr cfg.webserverPort) "https" :=
  ⟨rfl, rfl⟩

end Perutube
